import Mathlib

/-!
Verification of the moltworker gateway orchestration core.

Shallow embedding of:
- src/gateway/restore.ts (restoreFromR2, shouldRestore, migrateLegacyWorkspace,
  migrateLegacySkills, validateRestore)
- src/gateway/sync.ts (syncToR2)
- src/index.ts (the WebSocket bridge buffering logic)
- src/gateway/utils.ts (waitForProcess; only its test file is available, so the
  definition is modelled from the spec, see below)

Sandbox process operations (startProcess + waitForProcess + getLogs) are modelled
as an oracle environment: the i-th started process gets the i-th answer of the
environment, which is either a process result (exit code, stdout, stderr) or a
thrown error carrying a message.  Every startProcess call records the exact shell
command string it issues in a trace, so theorems can speak about which commands
were (not) issued and in which order.  console logging is side-effect free and is
elided.
-/

namespace Moltworker

/-! ### String utilities (kernel-reducible models of the JS string operations) -/

/-- Whitespace characters relevant to the manifest/stdout trimming done in the
TypeScript code via String.prototype.trim. -/
def isWsChar (c : Char) : Bool := c = ' ' || c = '\n' || c = '\t' || c = '\r'

/-- Drop leading whitespace from a character list. -/
def dropWs : List Char → List Char
  | [] => []
  | c :: cs => if isWsChar c then dropWs cs else c :: cs

/-- Model of JS String.prototype.trim. -/
def jsTrim (s : String) : String :=
  String.mk ((dropWs (dropWs s.toList.reverse).reverse))

/-- Does the first list occur at the head of the second one? -/
def leadsWith : List Char → List Char → Bool
  | [], _ => true
  | _ :: _, [] => false
  | a :: as, b :: bs => (a = b) && leadsWith as bs

/-- Does the first list occur anywhere inside the second one? -/
def occursIn (sub : List Char) : List Char → Bool
  | [] => leadsWith sub []
  | c :: rest => leadsWith sub (c :: rest) || occursIn sub rest

/-- Model of JS String.prototype.includes. -/
def strIncludes (s sub : String) : Bool := occursIn sub.toList s.toList

/-- ASCII digit test, as used by the regular expression \d. -/
def isDigitCh (c : Char) : Bool := ('0' ≤ c) && (c ≤ '9')

/-- Model of matching against the date-prefix regular expression used by
syncToR2 to validate the read-back manifest: four digits, dash, two digits,
dash, two digits, anchored at the start of the string. -/
def matchesDateFormat (s : String) : Bool :=
  match s.toList with
  | y1 :: y2 :: y3 :: y4 :: s1 :: m1 :: m2 :: s2 :: d1 :: d2 :: _ =>
    isDigitCh y1 && isDigitCh y2 && isDigitCh y3 && isDigitCh y4 && (s1 = '-') &&
    isDigitCh m1 && isDigitCh m2 && (s2 = '-') && isDigitCh d1 && isDigitCh d2
  | _ => false

/-! ### The sandbox process-operation model -/

/-- Result of one sandbox process operation: the started process has run (or
timed out) and exposes an optional exit code plus captured stdout/stderr.
exitCode is optional because the sandbox reports undefined for processes whose
status is stale or that have not exited. -/
structure ProcResult where
  exitCode : Option Int
  stdout : String
  stderr : String
deriving DecidableEq, Repr

/-- A thrown runtime error (an Error value in the TypeScript source); only its
message is ever inspected (err.message.includes and err.message for details). -/
structure SBError where
  msg : String
deriving DecidableEq, Repr

/-- The oracle environment: outcome of the i-th process operation issued. -/
abbrev Env : Type := Nat → Except SBError ProcResult

/-- Trace of shell command strings issued via startProcess, in issue order. -/
abbrev Trace : Type := List String

/-- Computation model: a step transforms the trace of already-issued commands
and either returns a value or propagates a thrown error.  The trace also
carries the resumption point of the oracle (its length is the index of the
next operation). -/
def M (α : Type) : Type := Trace → Except (SBError × Trace) (α × Trace)

namespace M

/-- Pure value, no operations issued. -/
def pure' (a : α) : M α := fun t => .ok (a, t)

/-- Sequencing: a thrown error propagates (an uncaught await rejection). -/
def bind' (m : M α) (f : α → M β) : M β := fun t =>
  match m t with
  | .ok (a, t2) => f a t2
  | .error e => .error e

/-- One sandbox process operation: startProcess cmd, waitForProcess, getLogs.
The oracle answers by operation index; the command is recorded in the trace
whether the operation succeeds or throws. -/
def op (env : Env) (cmd : String) : M ProcResult := fun t =>
  match env t.length with
  | .ok r => .ok (r, t ++ [cmd])
  | .error e => .error (e, t ++ [cmd])

/-- A try/catch block of the TypeScript source: errors of the body resume in
the handler at the point where the throw occurred. -/
def tryCatch (m : M α) (h : SBError → M α) : M α := fun t =>
  match m t with
  | .ok x => .ok x
  | .error (e, t2) => h e t2

end M

/-- Observe only the returned value of a computation run on a fresh trace. -/
def resultOf (r : Except (SBError × Trace) (α × Trace)) : Option α :=
  match r with
  | .ok (a, _) => some a
  | .error _ => none

/-- Observe only the trace of a successful computation. -/
def traceOf (r : Except (SBError × Trace) (α × Trace)) : Option Trace :=
  match r with
  | .ok (_, t) => some t
  | .error _ => none

/-- A computation never propagates a thrown error to its caller. -/
def NeverThrows (m : M α) : Prop := ∀ t, ∃ a t2, m t = .ok (a, t2)

theorem neverThrows_pure (a : α) : NeverThrows (M.pure' a) := by
  intro t; exact ⟨a, t, rfl⟩

theorem neverThrows_bind {m : M α} {f : α → M β}
    (hm : NeverThrows m) (hf : ∀ a, NeverThrows (f a)) :
    NeverThrows (M.bind' m f) := by
  intro t
  obtain ⟨a, t2, ha⟩ := hm t
  obtain ⟨b, t3, hb⟩ := hf a t2
  exact ⟨b, t3, by simp [M.bind', ha, hb]⟩

theorem neverThrows_tryCatch (m : M α) {h : SBError → M α}
    (hh : ∀ e, NeverThrows (h e)) :
    NeverThrows (M.tryCatch m h) := by
  intro t
  unfold M.tryCatch
  cases hm : m t with
  | ok x => exact ⟨x.1, x.2, by simp⟩
  | error e =>
    obtain ⟨a, t2, ha⟩ := hh e.1 e.2
    exact ⟨a, t2, by simp [ha]⟩

/-! ### The restore embedding (src/gateway/restore.ts) -/

/-- Modelled from the spec: the fixed local path at which the remote bucket is
mounted (the constant R2_MOUNT_PATH lives in src/config.ts, which is not part
of the available sources; start-openclaw.sh shows the mount root is
/data/moltbot).  Its concrete value is immaterial to every claim. -/
def R2_MOUNT_PATH : String := "/data/moltbot"

/-- Local config directory (CONFIG_DIR in restoreFromR2). -/
def CONFIG_DIR : String := "/root/.openclaw"

/-- The three backup layout roots, probed in this priority order. -/
inductive BackupRoot
  | current
  | legacyNested
  | legacyFlat
deriving DecidableEq, Repr

/-- The backup config directory selected for each layout root
(backupConfigDir in restoreFromR2). -/
def rootDir : BackupRoot → String
  | .current => R2_MOUNT_PATH ++ "/openclaw"
  | .legacyNested => R2_MOUNT_PATH ++ "/clawdbot"
  | .legacyFlat => R2_MOUNT_PATH

/-- Probe command for the current layout (openclaw/openclaw.json). -/
def probeNewCmd : String := "test -f " ++ R2_MOUNT_PATH ++ "/openclaw/openclaw.json"

/-- Probe command for the legacy nested layout (clawdbot/clawdbot.json). -/
def probeLegacyCmd : String := "test -f " ++ R2_MOUNT_PATH ++ "/clawdbot/clawdbot.json"

/-- Probe command for the legacy flat layout (clawdbot.json at the root). -/
def probeFlatCmd : String := "test -f " ++ R2_MOUNT_PATH ++ "/clawdbot.json"

/-- Diagnostic listing command issued when no backup root is found. -/
def diagCmd : String :=
  "echo \"=== R2 root (" ++ R2_MOUNT_PATH ++ ") ===\"; " ++
  "ls -la " ++ R2_MOUNT_PATH ++ " 2>&1 | head -100 || true; " ++
  "echo \"=== R2 openclaw dir (" ++ R2_MOUNT_PATH ++ "/openclaw) ===\"; " ++
  "ls -la " ++ R2_MOUNT_PATH ++ "/openclaw 2>&1 | head -100 || true; " ++
  "echo \"=== R2 clawdbot dir (" ++ R2_MOUNT_PATH ++ "/clawdbot) ===\"; " ++
  "ls -la " ++ R2_MOUNT_PATH ++ "/clawdbot 2>&1 | head -100 || true; " ++
  "echo \"=== R2 last-sync (" ++ R2_MOUNT_PATH ++ "/.last-sync) ===\"; " ++
  "cat " ++ R2_MOUNT_PATH ++ "/.last-sync 2>&1 | head -20 || true"

/-- cat of a manifest timestamp file. -/
def catManifestCmd (dir : String) : String := "cat " ++ dir ++ "/.last-sync 2>/dev/null"

/-- The shell timestamp comparison issued by shouldRestore. -/
def compareCmd (r2Time localTime : String) : String :=
  "test \"$(date -d \x27" ++ r2Time ++ "\x27 +%s 2>/dev/null || echo 0)\" -gt \"$(date -d \x27" ++
  localTime ++ "\x27 +%s 2>/dev/null || echo 0)\""

/-- Primary config copy command (mkdir, cp -a of the selected root, and a
best-effort copy of the remote manifest). -/
def restoreCmd (root : String) : String :=
  "mkdir -p " ++ CONFIG_DIR ++ " && cp -a " ++ root ++ "/. " ++ CONFIG_DIR ++
  "/ && cp -f " ++ R2_MOUNT_PATH ++ "/.last-sync " ++ CONFIG_DIR ++ "/.last-sync 2>/dev/null || true"

/-- Legacy primary-config rename command (clawdbot.json to openclaw.json,
only when the canonical name is absent). -/
def renameCmd : String :=
  "test -f " ++ CONFIG_DIR ++ "/clawdbot.json && ! test -f " ++ CONFIG_DIR ++
  "/openclaw.json && mv " ++ CONFIG_DIR ++ "/clawdbot.json " ++ CONFIG_DIR ++ "/openclaw.json || true"

/-- Restore marker write command. -/
def markerCmd : String :=
  "date -Iseconds > " ++ CONFIG_DIR ++ "/.r2-restored 2>/dev/null || echo \"restored\" > " ++
  CONFIG_DIR ++ "/.r2-restored"

/-- Existence/content check for the legacy workspace root. -/
def wsCheckCmd : String :=
  "test -d " ++ R2_MOUNT_PATH ++ "/workspace && ls " ++ R2_MOUNT_PATH ++
  "/workspace/ 2>/dev/null | head -1"

/-- No-clobber merge command for the legacy workspace root. -/
def wsMigrateCmd : String :=
  "mkdir -p " ++ CONFIG_DIR ++ "/workspace && cp -a -n " ++ R2_MOUNT_PATH ++
  "/workspace/. " ++ CONFIG_DIR ++ "/workspace/ 2>/dev/null || true"

/-- Existence/content check for the legacy skills root. -/
def skillsCheckCmd : String :=
  "test -d " ++ R2_MOUNT_PATH ++ "/skills && ls " ++ R2_MOUNT_PATH ++
  "/skills/ 2>/dev/null | head -1"

/-- No-clobber merge command for the legacy skills root. -/
def skillsMigrateCmd : String :=
  "mkdir -p " ++ CONFIG_DIR ++ "/workspace/skills && cp -a -n " ++ R2_MOUNT_PATH ++
  "/skills/. " ++ CONFIG_DIR ++ "/workspace/skills/ 2>/dev/null || true"

/-- Workspace validation command (size of IDENTITY.md). -/
def validateCmd : String :=
  "wc -c < " ++ CONFIG_DIR ++ "/workspace/IDENTITY.md 2>/dev/null || echo \"0\""

/-- Result type of restoreFromR2. -/
structure RestoreResult where
  restored : Bool
  details : Option String
  legacyMigrated : Option Bool
deriving DecidableEq, Repr

/-- Outcome of one layout probe in restoreFromR2: the test process exited 0
(found), it exited nonzero or threw a non-canceled error (not found), or the
thrown error message includes canceled (a Durable Object reset). -/
inductive ProbeOutcome
  | found
  | notFound
  | canceled
deriving DecidableEq, Repr

/-- One layout probe of restoreFromR2: start the test process inside try,
treat exit code 0 as found, and classify a thrown error by whether its
message includes canceled. -/
def probeStep (env : Env) (cmd : String) : M ProbeOutcome :=
  M.tryCatch
    (M.bind' (M.op env cmd) (fun r =>
      M.pure' (if r.exitCode = some 0 then ProbeOutcome.found else ProbeOutcome.notFound)))
    (fun e =>
      M.pure' (if strIncludes e.msg "canceled" then ProbeOutcome.canceled else ProbeOutcome.notFound))

/-- Outcome of the layout detection section of restoreFromR2. -/
inductive DetectOutcome
  | canceled
  | noneFound
  | found (root : BackupRoot) (needsMigration : Bool)
deriving DecidableEq, Repr

/-- Layout detection section of restoreFromR2 (lines 30-87): probe the three
roots in priority order, stopping at the first hit; a canceled probe aborts
detection. -/
def detectRoot (env : Env) : M DetectOutcome :=
  M.bind' (probeStep env probeNewCmd) (fun p1 =>
    match p1 with
    | .canceled => M.pure' .canceled
    | .found => M.pure' (.found .current false)
    | .notFound =>
      M.bind' (probeStep env probeLegacyCmd) (fun p2 =>
        match p2 with
        | .canceled => M.pure' .canceled
        | .found => M.pure' (.found .legacyNested true)
        | .notFound =>
          M.bind' (probeStep env probeFlatCmd) (fun p3 =>
            match p3 with
            | .canceled => M.pure' .canceled
            | .found => M.pure' (.found .legacyFlat true)
            | .notFound => M.pure' .noneFound)))

/-- The no-backup diagnostic branch of restoreFromR2 (lines 89-114): best
effort listing, then a result with details No backup data found either way. -/
def noBackupDiag (env : Env) : M RestoreResult :=
  M.tryCatch
    (M.bind' (M.op env diagCmd) (fun _ =>
      M.pure' ⟨false, some "No backup data found", none⟩))
    (fun _ => M.pure' ⟨false, some "No backup data found", none⟩)

/-- shouldRestore (restore.ts lines 264-315): read the local then the remote
manifest timestamp, decide per the timestamp rules, and on any thrown error
fall back to restoring. -/
def shouldRestore (env : Env) : M Bool :=
  M.tryCatch
    (M.bind' (M.op env (catManifestCmd CONFIG_DIR)) (fun lcl =>
      M.bind' (M.op env (catManifestCmd R2_MOUNT_PATH)) (fun r2 =>
        let localTime := jsTrim lcl.stdout
        let r2Time := jsTrim r2.stdout
        if localTime = "" then M.pure' true
        else if r2Time = "" then M.pure' false
        else
          M.bind' (M.op env (compareCmd r2Time localTime)) (fun cmp =>
            M.pure' (decide (cmp.exitCode = some 0))))))
    (fun _ => M.pure' true)

/-- The primary config copy try block of restoreFromR2 (lines 123-154):
copy, optional legacy rename, best-effort marker write; returns whether the
block completed (false means the catch produced Config restore failed). -/
def copyPhase (env : Env) (root : BackupRoot) (needsMigration : Bool) : M Bool :=
  M.tryCatch
    (M.bind' (M.op env (restoreCmd (rootDir root))) (fun _ =>
      M.bind'
        (if needsMigration then
          M.bind' (M.op env renameCmd) (fun _ => M.pure' ())
         else M.pure' ())
        (fun _ =>
          M.bind'
            (M.tryCatch (M.bind' (M.op env markerCmd) (fun _ => M.pure' ()))
              (fun _ => M.pure' ()))
            (fun _ => M.pure' true))))
    (fun _ => M.pure' false)

/-- migrateLegacyWorkspace (restore.ts lines 180-205): when the legacy
workspace root exists and is nonempty, merge it with the no-clobber copy;
every failure is swallowed and reported as not migrated. -/
def migrateLegacyWorkspace (env : Env) : M Bool :=
  M.tryCatch
    (M.bind' (M.op env wsCheckCmd) (fun chk =>
      if chk.exitCode = some 0 ∧ jsTrim chk.stdout ≠ "" then
        M.bind' (M.op env wsMigrateCmd) (fun _ => M.pure' true)
      else M.pure' false))
    (fun _ => M.pure' false)

/-- migrateLegacySkills (restore.ts lines 210-232). -/
def migrateLegacySkills (env : Env) : M Unit :=
  M.tryCatch
    (M.bind' (M.op env skillsCheckCmd) (fun chk =>
      if chk.exitCode = some 0 ∧ jsTrim chk.stdout ≠ "" then
        M.bind' (M.op env skillsMigrateCmd) (fun _ => M.pure' ())
      else M.pure' ()))
    (fun _ => M.pure' ())

/-- validateRestore (restore.ts lines 238-259): measures IDENTITY.md and only
logs; the parsed size feeds console output, so the state effect is just the
issued operation. -/
def validateRestore (env : Env) : M Unit :=
  M.tryCatch
    (M.bind' (M.op env validateCmd) (fun _ => M.pure' ()))
    (fun _ => M.pure' ())

/-- restoreFromR2 (restore.ts lines 26-171), composed from the sections
above in source order: detect layout, decide by manifests, copy, merge legacy
data, validate. -/
def restoreFromR2 (env : Env) : M RestoreResult :=
  M.bind' (detectRoot env) (fun d =>
    match d with
    | .canceled => M.pure' ⟨false, some "DO reset during restore", none⟩
    | .noneFound => noBackupDiag env
    | .found root needsMigration =>
      M.bind' (shouldRestore env) (fun sr =>
        if sr then
          M.bind' (copyPhase env root needsMigration) (fun copied =>
            if copied then
              M.bind' (migrateLegacyWorkspace env) (fun legacyMigrated =>
                M.bind' (migrateLegacySkills env) (fun _ =>
                  M.bind' (validateRestore env) (fun _ =>
                    M.pure' ⟨true, some ("Restored from " ++ rootDir root),
                      if legacyMigrated then some true else none⟩)))
            else M.pure' ⟨false, some "Config restore failed", none⟩)
        else M.pure' ⟨false, some "Local data is newer or same", none⟩))

/-! ### The sync embedding (src/gateway/sync.ts) -/

/-- Result type of syncToR2. -/
structure SyncResult where
  success : Bool
  lastSync : Option String
  error : Option String
  details : Option String
deriving DecidableEq, Repr

/-- Inputs of syncToR2 that are not process operations: presence of the three
R2 credential variables, and the result of mountR2Storage.  mountR2Storage
(src/gateway/r2.ts) is not part of the available sources; modelled from the
spec (section 4.2): it returns a boolean and never throws across its boundary. -/
structure SyncEnv where
  hasAccessKey : Bool
  hasSecretKey : Bool
  hasAccountId : Bool
  mountOk : Bool
  ops : Env

/-- Source existence check command of syncToR2. -/
def syncCheckCmd : String :=
  "ls /root/.openclaw/openclaw.json 2>/dev/null && echo FOUND_OPENCLAW || " ++
  "(ls /root/.clawdbot/clawdbot.json 2>/dev/null && echo FOUND_CLAWDBOT || echo FOUND_NONE)"

/-- Diagnostic listing command of syncToR2. -/
def syncDiagCmd : String :=
  "echo \"=== .openclaw ===\" && ls -la /root/.openclaw/ 2>&1 && " ++
  "echo \"=== .clawdbot ===\" && ls -la /root/.clawdbot/ 2>&1"

/-- The mirrored copy command of syncToR2: three rsync runs followed by the
manifest timestamp write, all chained with the shell and-operator. -/
def rsyncCmd (configDir : String) : String :=
  "rsync -r --no-times --delete --exclude=\x27*.lock\x27 --exclude=\x27*.log\x27 --exclude=\x27*.tmp\x27 " ++
  configDir ++ "/ " ++ R2_MOUNT_PATH ++ "/openclaw/ && " ++
  "rsync -r --no-times --delete --exclude=\x27skills\x27 /root/clawd/ " ++ R2_MOUNT_PATH ++ "/workspace/ && " ++
  "rsync -r --no-times --delete /root/clawd/skills/ " ++ R2_MOUNT_PATH ++ "/skills/ && " ++
  "date -Iseconds > " ++ R2_MOUNT_PATH ++ "/.last-sync"

/-- Manifest read-back command of syncToR2. -/
def catLastSyncCmd : String := "cat " ++ R2_MOUNT_PATH ++ "/.last-sync"

/-- The falsy-chain detail string for a failed sync:
logs.stderr or logs.stdout or No timestamp file created. -/
def syncFailDetails (copyProc : ProcResult) : String :=
  if copyProc.stderr ≠ "" then copyProc.stderr
  else if copyProc.stdout ≠ "" then copyProc.stdout
  else "No timestamp file created"

/-- The source-verification phase of syncToR2 (lines 52-86): one check
process decides the config directory; when neither marker is present, gather
the diagnostic listing and abort with an error result; a thrown error maps to
Failed to verify source files. -/
def syncCheckPhase (env : Env) : M (SyncResult ⊕ String) :=
  M.tryCatch
    (M.bind' (M.op env syncCheckCmd) (fun chk =>
      if strIncludes chk.stdout "FOUND_OPENCLAW" then M.pure' (.inr "/root/.openclaw")
      else if strIncludes chk.stdout "FOUND_CLAWDBOT" then M.pure' (.inr "/root/.clawdbot")
      else
        M.bind' (M.op env syncDiagCmd) (fun diag =>
          M.pure' (.inl ⟨false, none, some "Sync aborted: no config file found",
            some ("Neither openclaw.json nor clawdbot.json found. Directory listing: " ++
              (if diag.stdout ≠ "" then diag.stdout else "(empty)"))⟩))))
    (fun e => M.pure' (.inl ⟨false, none, some "Failed to verify source files", some e.msg⟩))

/-- The copy-and-verify phase of syncToR2 (lines 92-118): run the rsync chain
(its exit code is never inspected), then read the manifest back; success is
decided solely by the read-back content matching the date prefix pattern. -/
def syncCopyPhase (env : Env) (configDir : String) : M SyncResult :=
  M.tryCatch
    (M.bind' (M.op env (rsyncCmd configDir)) (fun copyProc =>
      M.bind' (M.op env catLastSyncCmd) (fun ts =>
        let lastSync := jsTrim ts.stdout
        if lastSync ≠ "" ∧ matchesDateFormat lastSync = true then
          M.pure' ⟨true, some lastSync, none, none⟩
        else
          M.pure' ⟨false, none, some "Sync failed", some (syncFailDetails copyProc)⟩)))
    (fun e => M.pure' ⟨false, none, some "Sync error", some e.msg⟩)

/-- syncToR2 (sync.ts lines 38-119): credential check, mount, source
verification, mirrored copy with read-back verification. -/
def syncToR2 (se : SyncEnv) : M SyncResult :=
  if !se.hasAccessKey || !se.hasSecretKey || !se.hasAccountId then
    M.pure' ⟨false, none, some "R2 storage is not configured", none⟩
  else if !se.mountOk then
    M.pure' ⟨false, none, some "Failed to mount R2 storage", none⟩
  else
    M.bind' (syncCheckPhase se.ops) (fun chk =>
      match chk with
      | .inl res => M.pure' res
      | .inr configDir => syncCopyPhase se.ops configDir)

/-! ### waitForProcess (src/gateway/utils.ts)

Modelled from the spec: src/gateway/utils.ts itself is not among the available
sources, only its test file src/gateway/utils.test.ts.  Per spec section 4.1
and the tests, waitForProcess polls the handle status until it is no longer
starting or running; a canceled status makes it reject immediately with the
distinguished message, and an elapsed timeout makes it resolve without error.
The status samples observed at successive polls are an arbitrary function of
the poll index, and the timeout is the number of polls the budget allows. -/

/-- Process status enum of the sandbox ProcessHandle. -/
inductive ProcStatus
  | starting
  | running
  | completed
  | failed
  | exited
  | canceled
deriving DecidableEq, Repr

/-- The exact rejection message asserted by utils.test.ts. -/
def canceledMsg : String := "Process was canceled (Durable Object reset?)"

/-- Modelled from the spec: the polling loop of waitForProcess.  samples i is
the status observed at the i-th poll; fuel is the remaining poll budget (the
timeout divided by the poll interval).  A canceled status rejects with the
distinguished message; any other status that is no longer starting/running
resolves; an exhausted budget resolves without error (timeout is not an
error for this primitive). -/
def waitLoop (samples : Nat → ProcStatus) : Nat → Nat → Except String Unit
  | i, 0 =>
    match samples i with
    | .canceled => .error canceledMsg
    | _ => .ok ()
  | i, fuel + 1 =>
    match samples i with
    | .canceled => .error canceledMsg
    | .starting => waitLoop samples (i + 1) fuel
    | .running => waitLoop samples (i + 1) fuel
    | _ => .ok ()

/-- Modelled from the spec: waitForProcess with a poll budget of maxPolls. -/
def waitForProcess (samples : Nat → ProcStatus) (maxPolls : Nat) : Except String Unit :=
  waitLoop samples 0 maxPolls

/-! ### Filesystem semantics of the no-clobber legacy merge

The legacy merge steps shell out to cp -a -n.  The filesystem below maps a
relative path to the content of the file stored there (none when absent). -/

/-- A directory tree as a map from relative paths to optional file contents. -/
def FSDir : Type := String → Option String

/-- Semantics of the shell command cp -a -n SRC/. DST/ (GNU cp with
no-clobber): a source file is copied only when the destination path does not
already hold a file. -/
def cpNoClobber (src dst : FSDir) : FSDir := fun p =>
  match dst p with
  | some c => some c
  | none => src p

/-- Effect of migrateLegacyWorkspace on the destination workspace directory
(the wsMigrateCmd command). -/
def migrateLegacyWorkspaceFS (legacyWs dstWs : FSDir) : FSDir :=
  cpNoClobber legacyWs dstWs

/-- Effect of migrateLegacySkills on the destination skills directory
(the skillsMigrateCmd command). -/
def migrateLegacySkillsFS (legacySkills dstSkills : FSDir) : FSDir :=
  cpNoClobber legacySkills dstSkills

/-! ### The WebSocket bridge buffering logic (src/index.ts lines 270-339)

Per bridge session the source keeps pendingToContainer (a bounded array),
containerWs (null until connected, with a readyState) and containerReady.
The state below models these, plus the ghost list sentToContainer recording
every message handed to containerWs.send in order.  Events: a client message
arriving at the serverWs message listener, the backend becoming ready
(containerWs accepted, containerReady set, flushPending run), and the backend
socket leaving the OPEN state. -/

/-- Per-session bridge state. -/
structure BridgeState where
  pendingToContainer : List String
  containerReady : Bool
  containerOpen : Bool
  sentToContainer : List String
deriving DecidableEq, Repr

/-- Events affecting the client-to-container direction of one session. -/
inductive BridgeEvent
  | clientMsg (m : String)
  | backendReady
  | backendClose
deriving DecidableEq, Repr

/-- flushPending (index.ts lines 278-287): requires the container socket to
be OPEN, then drains the pending buffer in order via splice(0). -/
def flushPending (s : BridgeState) : BridgeState :=
  if s.containerOpen then
    { s with sentToContainer := s.sentToContainer ++ s.pendingToContainer,
             pendingToContainer := [] }
  else s

/-- One event step of the bridge session.  A client message is forwarded when
containerReady holds and the container socket is OPEN, buffered while fewer
than 256 messages are pending, and discarded otherwise (index.ts lines
290-298).  backendReady models lines 336-339: the container socket is
accepted (OPEN), containerReady is set, and flushPending runs. -/
def bridgeStep (s : BridgeState) : BridgeEvent → BridgeState
  | .clientMsg m =>
    if s.containerReady && s.containerOpen then
      { s with sentToContainer := s.sentToContainer ++ [m] }
    else if s.pendingToContainer.length < 256 then
      { s with pendingToContainer := s.pendingToContainer ++ [m] }
    else s
  | .backendReady =>
    flushPending { s with containerReady := true, containerOpen := true }
  | .backendClose => { s with containerOpen := false }

/-- Fresh session state right after serverWs.accept(). -/
def initBridge : BridgeState := ⟨[], false, false, []⟩

/-- Run one session over a list of events. -/
def bridgeRun (es : List BridgeEvent) : BridgeState :=
  es.foldl bridgeStep initBridge

/-! ### Spec-side definitions for the section 4.3 decision table -/

/-- stdout of cat FILE 2>/dev/null: the file content when present, empty when
absent. -/
def contentOf : Option String → String
  | none => ""
  | some c => c

/-- Semantics of the shell comparison in compareCmd: date -d T +%s yields the
epoch seconds of T (parse T) or, when T is unparsable, the fallback echo 0;
the test -gt process exits 0 exactly when the remote value is strictly
greater. -/
def dateCompareExit (parse : String → Option Nat) (r2Time localTime : String) : Int :=
  if (parse r2Time).getD 0 > (parse localTime).getD 0 then 0 else 1

/-- Oracle environment for one shouldRestore run against manifest files with
the given contents: operation 0 reads the local manifest, operation 1 the
remote one, operation 2 is the shell timestamp comparison behaving per
dateCompareExit. -/
def envOfManifests (parse : String → Option Nat) (localM remoteM : Option String) : Env :=
  fun i =>
    match i with
    | 0 => .ok ⟨some 0, contentOf localM, ""⟩
    | 1 => .ok ⟨some 0, contentOf remoteM, ""⟩
    | 2 => .ok ⟨some (dateCompareExit parse (jsTrim (contentOf remoteM)) (jsTrim (contentOf localM))), "", ""⟩
    | _ => .ok ⟨some 0, "", ""⟩

/-- The restore decision table of spec section 4.3, written from the words of
the spec: local absent means restore (whether or not remote is present);
local present and remote absent means skip; both present means restore
exactly when remote is strictly newer, unparsable timestamps counting as
epoch 0. -/
def specRestoreDecision (parse : String → Option Nat) (localM remoteM : Option String) : Bool :=
  match localM, remoteM with
  | none, _ => true
  | some _, none => false
  | some l, some r => decide ((parse r).getD 0 > (parse l).getD 0)

theorem jsTrim_empty : jsTrim "" = "" := rfl

/-- C2: for every pair of local and remote manifest timestamps (each possibly
absent, and a present one having non-whitespace content), the decision
computed by shouldRestore equals the section 4.3 decision table, with
unparsable timestamp strings treated as epoch 0 by the shell comparison; the
run never crashes (it returns a value). -/
theorem restore_decision_table (parse : String → Option Nat) (localM remoteM : Option String)
    (hl : ∀ c, localM = some c → jsTrim c ≠ "")
    (hr : ∀ c, remoteM = some c → jsTrim c ≠ "") :
    resultOf (shouldRestore (envOfManifests parse localM remoteM) []) =
      some (specRestoreDecision parse (localM.map jsTrim) (remoteM.map jsTrim)) := by
  cases localM with
  | none =>
    cases remoteM with
    | none =>
      simp [shouldRestore, M.tryCatch, M.bind', M.op, M.pure', envOfManifests, contentOf,
        resultOf, specRestoreDecision, jsTrim_empty]
    | some r =>
      simp [shouldRestore, M.tryCatch, M.bind', M.op, M.pure', envOfManifests, contentOf,
        resultOf, specRestoreDecision, jsTrim_empty]
  | some l =>
    have hl' : jsTrim l ≠ "" := hl l rfl
    cases remoteM with
    | none =>
      simp [shouldRestore, M.tryCatch, M.bind', M.op, M.pure', envOfManifests, contentOf,
        resultOf, specRestoreDecision, hl', jsTrim_empty]
    | some r =>
      have hr' : jsTrim r ≠ "" := hr r rfl
      by_cases hgt : (parse (jsTrim r)).getD 0 > (parse (jsTrim l)).getD 0
      · simp [shouldRestore, M.tryCatch, M.bind', M.op, M.pure', envOfManifests, contentOf,
          resultOf, specRestoreDecision, hl', hr', dateCompareExit, hgt]
      · simp [shouldRestore, M.tryCatch, M.bind', M.op, M.pure', envOfManifests, contentOf,
          resultOf, specRestoreDecision, hl', hr', dateCompareExit, hgt]

/-- Witness for restore_decision_table: no local manifest, remote manifest
2026-01-01, with a parser that fails on everything (epoch 0 fallback); the
decision is restore. -/
theorem restore_decision_table_witness :
    resultOf (shouldRestore (envOfManifests (fun _ => none) none (some "2026-01-01")) []) =
      some true := by
  have h := restore_decision_table (fun _ => none) none (some "2026-01-01")
    (by intro c hc; cases hc) (by intro c hc; injection hc with h2; subst h2; decide)
  simpa [specRestoreDecision] using h

/-- C4: restoreFromR2 probes the three layout roots in the fixed priority
order current, then legacy-nested, then legacy-flat, and the first existing
root wins: when the current-layout probe exits 0 the detection returns the
current root having issued only the first probe command (lower-priority
probes are not consulted, whatever the oracle would answer for them);
when it fails and the nested probe exits 0, the nested root wins with exactly
two probe commands issued; when both fail and the flat probe exits 0, the
flat root wins with exactly the three probe commands issued, in order. -/
theorem probe_priority_order :
    (∀ (env : Env) (r0 : ProcResult), env 0 = .ok r0 → r0.exitCode = some 0 →
      detectRoot env [] = .ok (.found .current false, [probeNewCmd])) ∧
    (∀ (env : Env) (r0 r1 : ProcResult), env 0 = .ok r0 → r0.exitCode ≠ some 0 →
      env 1 = .ok r1 → r1.exitCode = some 0 →
      detectRoot env [] = .ok (.found .legacyNested true, [probeNewCmd, probeLegacyCmd])) ∧
    (∀ (env : Env) (r0 r1 r2 : ProcResult), env 0 = .ok r0 → r0.exitCode ≠ some 0 →
      env 1 = .ok r1 → r1.exitCode ≠ some 0 → env 2 = .ok r2 → r2.exitCode = some 0 →
      detectRoot env [] =
        .ok (.found .legacyFlat true, [probeNewCmd, probeLegacyCmd, probeFlatCmd])) := by
  refine ⟨?_, ?_, ?_⟩
  · intro env r0 h0 h0c
    simp [detectRoot, probeStep, M.tryCatch, M.bind', M.op, M.pure', h0, h0c]
  · intro env r0 r1 h0 h0c h1 h1c
    simp [detectRoot, probeStep, M.tryCatch, M.bind', M.op, M.pure', h0, h0c, h1, h1c]
  · intro env r0 r1 r2 h0 h0c h1 h1c h2 h2c
    simp [detectRoot, probeStep, M.tryCatch, M.bind', M.op, M.pure', h0, h0c, h1, h1c, h2, h2c]

/-- Witness for probe_priority_order: an oracle whose first answer exits 0
and whose later answers exit 1 selects the current root after one probe. -/
theorem probe_priority_order_witness :
    detectRoot (fun i => if i = 0 then .ok ⟨some 0, "", ""⟩ else .ok ⟨some 1, "", ""⟩) [] =
      .ok (.found .current false, [probeNewCmd]) :=
  probe_priority_order.1 (fun i => if i = 0 then .ok ⟨some 0, "", ""⟩ else .ok ⟨some 1, "", ""⟩)
    ⟨some 0, "", ""⟩ rfl rfl

/-- The canceled rejection of waitForProcess as a thrown Error value. -/
def cancelErr : SBError := ⟨"Process was canceled (Durable Object reset?)"⟩

/-- Oracle for the C1 counterexample: the current-layout probe succeeds, the
local manifest read inside shouldRestore is canceled (Durable Object reset),
and the remaining operations succeed with no legacy data present. -/
def envCancelDuringCompare : Env := fun i =>
  match i with
  | 0 => .ok ⟨some 0, "", ""⟩
  | 1 => .error cancelErr
  | 2 => .ok ⟨some 0, "", ""⟩
  | 3 => .ok ⟨some 0, "", ""⟩
  | 4 => .ok ⟨some 1, "", ""⟩
  | 5 => .ok ⟨some 1, "", ""⟩
  | _ => .ok ⟨some 0, "", ""⟩

/-- C1 counterexample: a run of restoreFromR2 in which a sandbox operation
(the manifest read of the comparison phase, operation 1 in the trace)
surfaces the distinguished canceled condition, yet the restore does not
short-circuit: it proceeds (the catch of shouldRestore falls back to
restoring) and returns restored = true.  So cancellation does not abort the
restore in every phase, only in the layout-probe phase. -/
theorem restore_cancel_counterexample :
    envCancelDuringCompare 1 = .error cancelErr ∧
    strIncludes cancelErr.msg "canceled" = true ∧
    resultOf (restoreFromR2 envCancelDuringCompare []) =
      some ⟨true, some ("Restored from " ++ R2_MOUNT_PATH ++ "/openclaw"), none⟩ ∧
    traceOf (restoreFromR2 envCancelDuringCompare []) =
      some [probeNewCmd, catManifestCmd CONFIG_DIR, restoreCmd (rootDir .current), markerCmd,
        wsCheckCmd, skillsCheckCmd, validateCmd] := by
  refine ⟨rfl, by decide, by decide, by decide⟩

/-- C1 amended: the short-circuit on cancellation holds in the layout-probe
phase: whenever one of the three layout probes surfaces a thrown error whose
message includes canceled, restoreFromR2 returns immediately with
restored = false and the distinct reason DO reset during restore (never
No backup data found), issuing no further operations. -/
theorem restore_cancel_probe_short_circuit :
    (∀ (env : Env) (e : SBError), env 0 = .error e → strIncludes e.msg "canceled" = true →
      restoreFromR2 env [] =
        .ok (⟨false, some "DO reset during restore", none⟩, [probeNewCmd])) ∧
    (∀ (env : Env) (r0 : ProcResult) (e : SBError), env 0 = .ok r0 → r0.exitCode ≠ some 0 →
      env 1 = .error e → strIncludes e.msg "canceled" = true →
      restoreFromR2 env [] =
        .ok (⟨false, some "DO reset during restore", none⟩, [probeNewCmd, probeLegacyCmd])) ∧
    (∀ (env : Env) (r0 r1 : ProcResult) (e : SBError), env 0 = .ok r0 → r0.exitCode ≠ some 0 →
      env 1 = .ok r1 → r1.exitCode ≠ some 0 →
      env 2 = .error e → strIncludes e.msg "canceled" = true →
      restoreFromR2 env [] =
        .ok (⟨false, some "DO reset during restore", none⟩,
          [probeNewCmd, probeLegacyCmd, probeFlatCmd])) := by
  refine ⟨?_, ?_, ?_⟩
  · intro env e h0 hc
    simp [restoreFromR2, detectRoot, probeStep, M.tryCatch, M.bind', M.op, M.pure', h0, hc]
  · intro env r0 e h0 h0c h1 hc
    simp [restoreFromR2, detectRoot, probeStep, M.tryCatch, M.bind', M.op, M.pure',
      h0, h0c, h1, hc]
  · intro env r0 r1 e h0 h0c h1 h1c h2 hc
    simp [restoreFromR2, detectRoot, probeStep, M.tryCatch, M.bind', M.op, M.pure',
      h0, h0c, h1, h1c, h2, hc]

/-- Oracle where every operation is canceled. -/
def envAllCanceled : Env := fun _ => .error cancelErr

/-- Witness for restore_cancel_probe_short_circuit: when the very first probe
is canceled, the restore aborts with the distinguished reason after one
operation. -/
theorem restore_cancel_probe_short_circuit_witness :
    restoreFromR2 envAllCanceled [] =
      .ok (⟨false, some "DO reset during restore", none⟩, [probeNewCmd]) :=
  restore_cancel_probe_short_circuit.1 envAllCanceled cancelErr rfl (by decide)

theorem neverThrows_probeStep (env : Env) (cmd : String) : NeverThrows (probeStep env cmd) :=
  neverThrows_tryCatch _ (fun _ => neverThrows_pure _)

theorem neverThrows_detectRoot (env : Env) : NeverThrows (detectRoot env) := by
  unfold detectRoot
  refine neverThrows_bind (neverThrows_probeStep env probeNewCmd) ?_
  intro p1
  cases p1 with
  | canceled => exact neverThrows_pure _
  | found => exact neverThrows_pure _
  | notFound =>
    refine neverThrows_bind (neverThrows_probeStep env probeLegacyCmd) ?_
    intro p2
    cases p2 with
    | canceled => exact neverThrows_pure _
    | found => exact neverThrows_pure _
    | notFound =>
      refine neverThrows_bind (neverThrows_probeStep env probeFlatCmd) ?_
      intro p3
      cases p3 <;> exact neverThrows_pure _

theorem neverThrows_shouldRestore (env : Env) : NeverThrows (shouldRestore env) :=
  neverThrows_tryCatch _ (fun _ => neverThrows_pure _)

theorem neverThrows_noBackupDiag (env : Env) : NeverThrows (noBackupDiag env) :=
  neverThrows_tryCatch _ (fun _ => neverThrows_pure _)

theorem neverThrows_copyPhase (env : Env) (root : BackupRoot) (mig : Bool) :
    NeverThrows (copyPhase env root mig) :=
  neverThrows_tryCatch _ (fun _ => neverThrows_pure _)

theorem neverThrows_migrateLegacyWorkspace (env : Env) :
    NeverThrows (migrateLegacyWorkspace env) :=
  neverThrows_tryCatch _ (fun _ => neverThrows_pure _)

theorem neverThrows_migrateLegacySkills (env : Env) :
    NeverThrows (migrateLegacySkills env) :=
  neverThrows_tryCatch _ (fun _ => neverThrows_pure _)

theorem neverThrows_validateRestore (env : Env) : NeverThrows (validateRestore env) :=
  neverThrows_tryCatch _ (fun _ => neverThrows_pure _)

theorem neverThrows_restoreFromR2 (env : Env) : NeverThrows (restoreFromR2 env) := by
  unfold restoreFromR2
  refine neverThrows_bind (neverThrows_detectRoot env) ?_
  intro d
  cases d with
  | canceled => exact neverThrows_pure _
  | noneFound => exact neverThrows_noBackupDiag env
  | found root mig =>
    refine neverThrows_bind (neverThrows_shouldRestore env) ?_
    intro sr
    cases sr with
    | false => exact neverThrows_pure _
    | true =>
      simp only [if_true]
      refine neverThrows_bind (neverThrows_copyPhase env root mig) ?_
      intro copied
      cases copied with
      | false => exact neverThrows_pure _
      | true =>
        simp only [if_true]
        refine neverThrows_bind (neverThrows_migrateLegacyWorkspace env) ?_
        intro lm
        refine neverThrows_bind (neverThrows_migrateLegacySkills env) ?_
        intro u
        refine neverThrows_bind (neverThrows_validateRestore env) ?_
        intro u2
        exact neverThrows_pure _

theorem neverThrows_syncCheckPhase (env : Env) : NeverThrows (syncCheckPhase env) :=
  neverThrows_tryCatch _ (fun _ => neverThrows_pure _)

theorem neverThrows_syncCopyPhase (env : Env) (configDir : String) :
    NeverThrows (syncCopyPhase env configDir) :=
  neverThrows_tryCatch _ (fun _ => neverThrows_pure _)

theorem neverThrows_syncToR2 (se : SyncEnv) : NeverThrows (syncToR2 se) := by
  unfold syncToR2
  split
  · exact neverThrows_pure _
  · split
    · exact neverThrows_pure _
    · refine neverThrows_bind (neverThrows_syncCheckPhase se.ops) ?_
      intro chk
      cases chk with
      | inl res => exact neverThrows_pure _
      | inr configDir => exact neverThrows_syncCopyPhase se.ops configDir

/-- C9: restoreFromR2 and syncToR2 are total at their boundary: whatever the
oracle environment does on every operation (success with any exit code,
thrown transport errors, cancellation) and whatever the credential and mount
state is, each returns a RestoreResult or SyncResult value and never
propagates a thrown error to its caller. -/
theorem no_raw_exceptions :
    (∀ (env : Env) (t : Trace), ∃ r t2, restoreFromR2 env t = .ok (r, t2)) ∧
    (∀ (se : SyncEnv) (t : Trace), ∃ r t2, syncToR2 se t = .ok (r, t2)) :=
  ⟨fun env t => neverThrows_restoreFromR2 env t,
   fun se t => neverThrows_syncToR2 se t⟩

/-- Oracle for a syncToR2 run that aborts in the source-verification phase:
operation 0 is the existence check, operation 1 the diagnostic listing. -/
def syncEnvAbort (checkOut diagOut : String) : Env := fun i =>
  match i with
  | 0 => .ok ⟨some 0, checkOut, ""⟩
  | 1 => .ok ⟨some 0, diagOut, ""⟩
  | _ => .ok ⟨some 0, "", ""⟩

/-- C5: when the existence-check output names neither possible primary-config
file, syncToR2 returns success = false with the diagnostic directory listing
in its details, and the trace shows that only the check and the diagnostic
listing were issued: no rsync and no manifest write reach the remote mirror. -/
theorem sync_refuses_without_config (checkOut diagOut : String)
    (h1 : strIncludes checkOut "FOUND_OPENCLAW" = false)
    (h2 : strIncludes checkOut "FOUND_CLAWDBOT" = false) :
    syncToR2 ⟨true, true, true, true, syncEnvAbort checkOut diagOut⟩ [] =
      .ok (⟨false, none, some "Sync aborted: no config file found",
        some ("Neither openclaw.json nor clawdbot.json found. Directory listing: " ++
          (if diagOut ≠ "" then diagOut else "(empty)"))⟩,
        [syncCheckCmd, syncDiagCmd]) := by
  simp [syncToR2, syncCheckPhase, M.tryCatch, M.bind', M.op, M.pure', syncEnvAbort, h1, h2]

/-- Witness for sync_refuses_without_config: check output FOUND_NONE, a
nonempty listing. -/
theorem sync_refuses_without_config_witness :
    syncToR2 ⟨true, true, true, true, syncEnvAbort "FOUND_NONE\n" "total 0"⟩ [] =
      .ok (⟨false, none, some "Sync aborted: no config file found",
        some ("Neither openclaw.json nor clawdbot.json found. Directory listing: " ++
          "total 0")⟩,
        [syncCheckCmd, syncDiagCmd]) := by
  have h := sync_refuses_without_config "FOUND_NONE\n" "total 0" (by decide) (by decide)
  simpa using h

theorem matchesDateFormat_ne_empty {s : String} (h : matchesDateFormat s = true) : s ≠ "" := by
  intro hs
  rw [hs] at h
  exact absurd h (by decide)

/-- Oracle for a syncToR2 run that reaches the copy phase: operation 0 is the
existence check (finding the canonical config), operation 1 the rsync chain,
operation 2 the manifest read-back. -/
def syncEnvCopy (checkOut : String) (copyR tsR : ProcResult) : Env := fun i =>
  match i with
  | 0 => .ok ⟨some 0, checkOut, ""⟩
  | 1 => .ok copyR
  | 2 => .ok tsR
  | _ => .ok ⟨some 0, "", ""⟩

/-- C6: syncToR2 decides success solely by the read-back manifest content
matching the date-prefix pattern: for every behavior of the copy process
(any exit code, including nonzero and undefined, any output) and every
read-back content, the run returns success = true with the trimmed content
exactly when the trimmed content matches, and success = false with error
details otherwise. -/
theorem sync_success_by_readback (copyR tsR : ProcResult) :
    syncToR2 ⟨true, true, true, true, syncEnvCopy "FOUND_OPENCLAW\n" copyR tsR⟩ [] =
      .ok ((if matchesDateFormat (jsTrim tsR.stdout) = true then
          ⟨true, some (jsTrim tsR.stdout), none, none⟩
        else
          ⟨false, none, some "Sync failed", some (syncFailDetails copyR)⟩ : SyncResult),
        [syncCheckCmd, rsyncCmd "/root/.openclaw", catLastSyncCmd]) := by
  by_cases hm : matchesDateFormat (jsTrim tsR.stdout) = true
  · have hne : jsTrim tsR.stdout ≠ "" := matchesDateFormat_ne_empty hm
    simp [syncToR2, syncCheckPhase, syncCopyPhase, M.tryCatch, M.bind', M.op, M.pure',
      syncEnvCopy, hm, hne, strIncludes, occursIn, leadsWith]
  · simp [syncToR2, syncCheckPhase, syncCopyPhase, M.tryCatch, M.bind', M.op, M.pure',
      syncEnvCopy, hm, strIncludes, occursIn, leadsWith]

theorem waitLoop_reaches_ok (samples : Nat → ProcStatus) :
    ∀ (k i fuel : Nat), k ≤ fuel →
      (∀ j, j < k → samples (i + j) = .running ∨ samples (i + j) = .starting) →
      (samples (i + k) = .completed ∨ samples (i + k) = .exited) →
      waitLoop samples i fuel = .ok () := by
  intro k
  induction k with
  | zero =>
    intro i fuel _ _ hterm
    cases fuel with
    | zero => cases hterm with
      | inl h => simp only [waitLoop, Nat.add_zero] at *; rw [h]
      | inr h => simp only [waitLoop, Nat.add_zero] at *; rw [h]
    | succ f => cases hterm with
      | inl h => simp only [waitLoop, Nat.add_zero] at *; rw [h]
      | inr h => simp only [waitLoop, Nat.add_zero] at *; rw [h]
  | succ k ih =>
    intro i fuel hk hpre hterm
    cases fuel with
    | zero => omega
    | succ f =>
      have h0 := hpre 0 (Nat.succ_pos k)
      have hrec : waitLoop samples (i + 1) f = .ok () := by
        refine ih (i + 1) f (by omega) ?_ ?_
        · intro j hj
          have := hpre (j + 1) (by omega)
          simpa [Nat.add_assoc, Nat.add_comm 1 j] using this
        · have : i + 1 + k = i + (k + 1) := by omega
          rw [this]
          exact hterm
      rw [Nat.add_zero] at h0
      cases h0 with
      | inl h => simp only [waitLoop]; rw [h]; exact hrec
      | inr h => simp only [waitLoop]; rw [h]; exact hrec

theorem waitLoop_timeout_ok (samples : Nat → ProcStatus) :
    ∀ (fuel i : Nat), (∀ j, samples j = .running) → waitLoop samples i fuel = .ok () := by
  intro fuel
  induction fuel with
  | zero => intro i hall; simp only [waitLoop]; rw [hall i]
  | succ f ih =>
    intro i hall
    simp only [waitLoop]
    rw [hall i]
    exact ih (i + 1) hall

theorem waitLoop_canceled (samples : Nat → ProcStatus) :
    ∀ (k i fuel : Nat), k ≤ fuel →
      (∀ j, j < k → samples (i + j) = .running ∨ samples (i + j) = .starting) →
      samples (i + k) = .canceled →
      waitLoop samples i fuel = .error canceledMsg := by
  intro k
  induction k with
  | zero =>
    intro i fuel _ _ hc
    rw [Nat.add_zero] at hc
    cases fuel with
    | zero => simp only [waitLoop]; rw [hc]
    | succ f => simp only [waitLoop]; rw [hc]
  | succ k ih =>
    intro i fuel hk hpre hc
    cases fuel with
    | zero => omega
    | succ f =>
      have h0 := hpre 0 (Nat.succ_pos k)
      have hrec : waitLoop samples (i + 1) f = .error canceledMsg := by
        refine ih (i + 1) f (by omega) ?_ ?_
        · intro j hj
          have := hpre (j + 1) (by omega)
          simpa [Nat.add_assoc, Nat.add_comm 1 j] using this
        · have : i + 1 + k = i + (k + 1) := by omega
          rw [this]
          exact hc
      rw [Nat.add_zero] at h0
      cases h0 with
      | inl h => simp only [waitLoop]; rw [h]; exact hrec
      | inr h => simp only [waitLoop]; rw [h]; exact hrec

/-- C3: the waitForProcess contract.  When the status stays starting/running
for the first k polls and then is completed or exited within the poll budget,
the wait resolves without error; when the status stays running for the whole
budget, the wait resolves without throwing (timeout is not an error); when
the status is canceled at some poll within the budget (immediately with
k = 0, or after running for k polls), the wait rejects with exactly the
distinguished cancellation message, which contains the canceled marker that
callers test for and which no other outcome of this primitive produces. -/
theorem waitForProcess_contract (samples : Nat → ProcStatus) (fuel k : Nat) :
    (k ≤ fuel →
      (∀ j, j < k → samples j = .running ∨ samples j = .starting) →
      (samples k = .completed ∨ samples k = .exited) →
      waitForProcess samples fuel = .ok ()) ∧
    ((∀ j, samples j = .running) → waitForProcess samples fuel = .ok ()) ∧
    (k ≤ fuel →
      (∀ j, j < k → samples j = .running ∨ samples j = .starting) →
      samples k = .canceled →
      waitForProcess samples fuel = .error canceledMsg ∧
        strIncludes canceledMsg "canceled" = true) := by
  refine ⟨?_, ?_, ?_⟩
  · intro hk hpre hterm
    exact waitLoop_reaches_ok samples k 0 fuel hk (by simpa using hpre) (by simpa using hterm)
  · intro hall
    exact waitLoop_timeout_ok samples fuel 0 hall
  · intro hk hpre hc
    refine ⟨waitLoop_canceled samples k 0 fuel hk (by simpa using hpre) (by simpa using hc),
      by decide⟩

/-- Witness for waitForProcess_contract: a handle that runs for two polls and
then completes resolves; a handle that is canceled immediately rejects with
the distinguished message. -/
theorem waitForProcess_contract_witness :
    waitForProcess (fun j => if j < 2 then .running else .completed) 5 = .ok () ∧
    waitForProcess (fun _ => .canceled) 5 = .error canceledMsg := by
  constructor
  · exact (waitForProcess_contract (fun j => if j < 2 then .running else .completed) 5 2).1
      (by omega)
      (fun j hj => Or.inl (by simp [hj]))
      (Or.inl (by norm_num))
  · exact ((waitForProcess_contract (fun _ => .canceled) 5 0).2.2
      (by omega) (fun j hj => absurd hj (by omega)) rfl).1

/-- C7: the legacy workspace/skills merges never overwrite an existing
destination file: for every relative path already holding content at the
destination, the post-merge content is unchanged; a path absent from the
destination receives the legacy source content; and the commands issued by
migrateLegacyWorkspace and migrateLegacySkills are indeed the no-clobber
cp -a -n form whose semantics cpNoClobber models. -/
theorem legacy_merge_no_clobber :
    (∀ (src dst : FSDir) (p c : String),
      dst p = some c → migrateLegacyWorkspaceFS src dst p = some c) ∧
    (∀ (src dst : FSDir) (p : String),
      dst p = none → migrateLegacyWorkspaceFS src dst p = src p) ∧
    (∀ (src dst : FSDir) (p c : String),
      dst p = some c → migrateLegacySkillsFS src dst p = some c) ∧
    (∀ (src dst : FSDir) (p : String),
      dst p = none → migrateLegacySkillsFS src dst p = src p) ∧
    strIncludes wsMigrateCmd "cp -a -n" = true ∧
    strIncludes skillsMigrateCmd "cp -a -n" = true := by
  refine ⟨?_, ?_, ?_, ?_, by decide, by decide⟩
  · intro src dst p c h
    simp [migrateLegacyWorkspaceFS, cpNoClobber, h]
  · intro src dst p h
    simp [migrateLegacyWorkspaceFS, cpNoClobber, h]
  · intro src dst p c h
    simp [migrateLegacySkillsFS, cpNoClobber, h]
  · intro src dst p h
    simp [migrateLegacySkillsFS, cpNoClobber, h]

/-- A destination workspace already holding IDENTITY.md with content A. -/
def legacyDstSample : FSDir := fun p => if p = "IDENTITY.md" then some "A" else none

/-- A legacy source holding IDENTITY.md with content B. -/
def legacySrcSample : FSDir := fun p => if p = "IDENTITY.md" then some "B" else none

/-- Witness for legacy_merge_no_clobber: the destination content A survives
the merge even though the legacy source holds B at the same path. -/
theorem legacy_merge_no_clobber_witness :
    migrateLegacyWorkspaceFS legacySrcSample legacyDstSample "IDENTITY.md" = some "A" :=
  legacy_merge_no_clobber.1 legacySrcSample legacyDstSample "IDENTITY.md" "A" (by decide)

theorem bridge_buffer_msgs (msgs : List String) :
    ∀ (s : BridgeState), s.containerReady = false →
      (msgs.map BridgeEvent.clientMsg).foldl bridgeStep s =
        { s with pendingToContainer :=
            s.pendingToContainer ++ msgs.take (256 - s.pendingToContainer.length) } := by
  induction msgs with
  | nil => intro s _; simp
  | cons m ms ih =>
    intro s hs
    simp only [List.map_cons, List.foldl_cons]
    by_cases hlen : s.pendingToContainer.length < 256
    · rw [show bridgeStep s (.clientMsg m) =
          { s with pendingToContainer := s.pendingToContainer ++ [m] } from by
        simp [bridgeStep, hs, hlen]]
      rw [ih _ (by simp [hs])]
      have harith : 256 - s.pendingToContainer.length = (256 - (s.pendingToContainer.length + 1)) + 1 := by
        omega
      simp [harith, List.take_succ_cons, List.append_assoc]
    · rw [show bridgeStep s (.clientMsg m) = s from by simp [bridgeStep, hs, hlen]]
      rw [ih _ hs]
      have harith : 256 - s.pendingToContainer.length = 0 := by omega
      simp [harith]

theorem bridge_forward_msgs (msgs : List String) :
    ∀ (s : BridgeState), s.containerReady = true → s.containerOpen = true →
      (msgs.map BridgeEvent.clientMsg).foldl bridgeStep s =
        { s with sentToContainer := s.sentToContainer ++ msgs } := by
  induction msgs with
  | nil => intro s _ _; simp
  | cons m ms ih =>
    intro s h1 h2
    simp only [List.map_cons, List.foldl_cons]
    rw [show bridgeStep s (.clientMsg m) =
        { s with sentToContainer := s.sentToContainer ++ [m] } from by
      simp [bridgeStep, h1, h2]]
    rw [ih _ (by simp [h1]) (by simp [h2])]
    simp

/-- The complete state of one bridge session in which the backend becomes
ready after the pre messages and stays open: pending messages (capped at the
256-entry capacity) are flushed in order ahead of every post-ready message,
and the buffer ends (and stays) empty. -/
theorem bridge_session_final (pre post : List String) :
    bridgeRun (pre.map BridgeEvent.clientMsg ++
        BridgeEvent.backendReady :: post.map BridgeEvent.clientMsg) =
      ⟨[], true, true, pre.take 256 ++ post⟩ := by
  unfold bridgeRun
  rw [List.foldl_append, List.foldl_cons]
  have hbuf : (pre.map BridgeEvent.clientMsg).foldl bridgeStep initBridge =
      ⟨pre.take 256, false, false, []⟩ := by
    rw [bridge_buffer_msgs pre initBridge rfl]
    simp [initBridge]
  rw [hbuf]
  have hstep : bridgeStep (⟨pre.take 256, false, false, []⟩ : BridgeState)
      BridgeEvent.backendReady = ⟨[], true, true, pre.take 256⟩ := by
    simp [bridgeStep, flushPending]
  rw [hstep]
  rw [bridge_forward_msgs post ⟨[], true, true, pre.take 256⟩ rfl rfl]

theorem bridgeStep_preserves_bound (s : BridgeState) (e : BridgeEvent)
    (h : s.pendingToContainer.length ≤ 256) :
    (bridgeStep s e).pendingToContainer.length ≤ 256 := by
  cases e with
  | clientMsg m =>
    by_cases h1 : (s.containerReady && s.containerOpen) = true
    · simpa [bridgeStep, h1] using h
    · by_cases h2 : s.pendingToContainer.length < 256
      · simp [bridgeStep, h1, h2]
        omega
      · simpa [bridgeStep, h1, h2] using h
  | backendReady => simp [bridgeStep, flushPending]
  | backendClose => simpa [bridgeStep] using h

theorem bridgeRun_bound (es : List BridgeEvent) :
    ∀ s : BridgeState, s.pendingToContainer.length ≤ 256 →
      (es.foldl bridgeStep s).pendingToContainer.length ≤ 256 := by
  induction es with
  | nil => intro s h; simpa using h
  | cons e es ih =>
    intro s h
    simpa using ih _ (bridgeStep_preserves_bound s e h)

/-- C8: in a bridge session where the backend becomes ready once (after the
pre-ready client messages) and stays open, every client message that arrived
before readiness (up to the 256-entry buffer capacity) is delivered to the
backend in original arrival order, all of them ahead of every message
arriving after readiness, and nothing is left (or ever again placed) in the
pending buffer after the flush. -/
theorem bridge_flush_order (pre post : List String) :
    (bridgeRun (pre.map BridgeEvent.clientMsg ++
        BridgeEvent.backendReady :: post.map BridgeEvent.clientMsg)).sentToContainer =
      pre.take 256 ++ post ∧
    (bridgeRun (pre.map BridgeEvent.clientMsg ++
        BridgeEvent.backendReady :: post.map BridgeEvent.clientMsg)).pendingToContainer = [] := by
  rw [bridge_session_final]
  exact ⟨rfl, rfl⟩

/-- C10: the pending buffer of a bridge session never exceeds 256 entries
along any event sequence; a client message arriving when the backend is
not ready and the buffer is full leaves the state entirely unchanged
(reject-new: the new message is discarded, no entry is evicted); and after
the flush on readiness the buffer is empty and stays empty for the rest of
the session while the backend stays open. -/
theorem bridge_buffer_bounded :
    (∀ es : List BridgeEvent, (bridgeRun es).pendingToContainer.length ≤ 256) ∧
    (∀ (s : BridgeState) (m : String), s.containerReady = false →
      s.pendingToContainer.length = 256 → bridgeStep s (.clientMsg m) = s) ∧
    (∀ pre post : List String,
      (bridgeRun (pre.map BridgeEvent.clientMsg ++
          BridgeEvent.backendReady :: post.map BridgeEvent.clientMsg)).pendingToContainer = []) := by
  refine ⟨fun es => bridgeRun_bound es initBridge (by simp [initBridge]), ?_, ?_⟩
  · intro s m h1 h2
    simp [bridgeStep, h1, h2]
  · intro pre post
    rw [bridge_session_final]

/-- Witness for bridge_buffer_bounded: a full buffer with the backend not
ready discards a new message without changing the state. -/
theorem bridge_buffer_bounded_witness :
    bridgeStep ⟨List.replicate 256 "m", false, false, []⟩ (.clientMsg "x") =
      ⟨List.replicate 256 "m", false, false, []⟩ :=
  bridge_buffer_bounded.2.1 ⟨List.replicate 256 "m", false, false, []⟩ "x" rfl (List.length_replicate 256 "m")

end Moltworker
